import Mathlib

/-!
Shallow embedding of the solr-collections-operator reconciliation core
(`internal/controller/solr_api/solr_types.go`, `solr_client.go`,
`api/v1/solrcollectionset_types.go`).

Modelling conventions:
* Go `map[string]V` values are association lists `List (String × V)`;
  `mapInsert` models `m[k] = v` (overwrite), `lookupA` models `v, ok := m[k]`.
  Go map iteration order is nondeterministic, so list order is universally
  quantified wherever a property must hold for every order.
* Go `int32` is `Int`; the `int32(...)` truncation is modelled explicitly
  (`int32wrap`) where a conversion appears in the source.
* Fallible operations return `Option`/pairs with an `Option String` error,
  mirroring Go's `(T, error)`.
* The MD5 digest (`crypto/md5`, external library) is an uninterpreted
  deterministic function parameter `hash : String → String`; base64 decoding
  (`encoding/base64`) is a parameter `b64decode : String → Option String`.
* Engine HTTP responses are modelled by `HttpResponse` oracles; a reconcile
  pass only observes the status code and the parsed `error.msg` body field,
  which is exactly what the Go client extracts.
-/

/-- Character-list prefix test, used to model Go `strings.HasPrefix` and as
the workhorse for `strings.Contains`. `startsWithList l pat` is true iff
`pat` is a prefix of `l`. -/
def startsWithList : List Char → List Char → Bool
  | _, [] => true
  | [], _ :: _ => false
  | c :: cs, p :: ps => c == p && startsWithList cs ps

/-- Substring occurrence test on character lists: `containsList l pat` is
true iff `pat` occurs contiguously inside `l` (Go `strings.Contains`). -/
def containsList : List Char → List Char → Bool
  | [], pat => pat.isEmpty
  | l@(_ :: cs), pat => startsWithList l pat || containsList cs pat

/-- Go `strings.HasPrefix s pre`. -/
def hasPrefixStr (s pre : String) : Bool :=
  startsWithList s.toList pre.toList

/-- Go `strings.HasSuffix s suf`. -/
def hasSuffixStr (s suf : String) : Bool :=
  startsWithList s.toList.reverse suf.toList.reverse

/-- Go `strings.Contains s pat`. -/
def stringContains (s pat : String) : Bool :=
  containsList s.toList pat.toList

/-- Go `strings.TrimSuffix s suffix`: drops `suffix` when it is a suffix of
`s`, otherwise returns `s` unchanged. -/
def trimSuffix (s suffix : String) : String :=
  if hasSuffixStr s suffix then
    ⟨s.toList.take (s.toList.length - suffix.toList.length)⟩
  else s

/-- Association-list lookup, modelling Go `v, ok := m[k]`. -/
def lookupA {α : Type} (m : List (String × α)) (k : String) : Option α :=
  (m.find? (fun p => p.1 == k)).map (·.2)

/-- Association-list insertion with overwrite, modelling Go `m[k] = v`. -/
def mapInsert {α : Type} (m : List (String × α)) (k : String) (v : α) :
    List (String × α) :=
  (m.filter (fun p => p.1 != k)) ++ [(k, v)]

/-- Go `abs` from `solr_types.go`: absolute value of an int32. -/
def goAbs (x : Int) : Int :=
  if x < 0 then -x else x

/-- Go `contains` from `solr_types.go`: membership test on a string slice. -/
def containsStr (list : List String) (target : String) : Bool :=
  list.any (fun v => v == target)

/-- Truncation of a mathematical integer to a signed 32-bit value,
modelling Go's `int32(...)` conversion. -/
def int32wrap (n : Int) : Int :=
  let m := n % 4294967296
  if m < 2147483648 then m else m - 4294967296

/-- Parses a decimal string the way Go `strconv.Atoi` does on a 64-bit
platform: an optional sign followed by at least one digit and nothing else
yields the value clamped to the int64 range (the clamped value is returned
together with the range error, which the caller discards); any other input
yields 0 (with a syntax error, also discarded by the caller). -/
def goAtoi (s : String) : Int :=
  let chars := s.toList
  let (sign, digits) :=
    match chars with
    | '-' :: rest => ((-1 : Int), rest)
    | '+' :: rest => ((1 : Int), rest)
    | rest => ((1 : Int), rest)
  if digits.isEmpty || digits.any (fun c => !c.isDigit) then 0
  else
    let v : Int := sign * (digits.foldl (fun acc c => acc * 10 + (c.toNat - 48)) 0 : Nat)
    if v > 9223372036854775807 then 9223372036854775807
    else if v < -9223372036854775808 then -9223372036854775808
    else v

/-- Values a `map[string]interface{}` entry can hold after
`k8s.io/apimachinery/pkg/util/json.Unmarshal`, as far as
`interfaceToInt32` distinguishes them: the unmarshaller turns whole JSON
numbers into `int64` and leaves strings alone; a missing key reads as the
nil interface; anything else falls through the switch. -/
inductive JsonVal : Type
  | jnull
  | jint32 (n : Int)
  | jint64 (n : Int)
  | jstring (s : String)
  | jother
deriving DecidableEq, Repr

/-- Embeds `interfaceToInt32` from `solr_client.go`. The Go function
switches on `reflect.TypeOf(i).Kind().String()`; when `i` is the nil
interface, `reflect.TypeOf` returns a nil `reflect.Type` and the `Kind()`
call panics with a nil-pointer dereference, modelled here as `none`.
The `string` case ignores the `strconv.Atoi` error; the default case
leaves the zero result. -/
def interfaceToInt32 : JsonVal → Option Int
  | JsonVal.jnull => none
  | JsonVal.jint32 n => some n
  | JsonVal.jint64 n => some (int32wrap n)
  | JsonVal.jstring s => some (int32wrap (goAtoi s))
  | JsonVal.jother => some 0

/-- Collection record projected from the engine's cluster status
(`solr_types.go`, `type Collection`). -/
structure Collection where
  name : String
  replicationFactor : Int
  replicaCount : Int
  configName : String
deriving DecidableEq, Repr

/-- Cluster snapshot (`solr_types.go`, `type ClusterStatus`): the alias map
and the collection map, as association lists. -/
structure ClusterStatus where
  collections : List (String × Collection)
  aliases : List (String × String)
deriving DecidableEq, Repr

/-- Spec entry (`api/v1/solrcollectionset_types.go`, `type SolrCollection`). -/
structure SolrCollection where
  name : String
  -- the source field is `Alias`; `alias` is a reserved word in Lean
  aliasName : String
  configsetName : String
deriving DecidableEq, Repr

/-- Embeds `SetCollectionDefaults` from `solrcollectionset_types.go` for a
single spec entry: an empty `ConfigsetName` is filled with `Name`, then an
empty `Alias` is filled with `Name`. -/
def setCollectionDefaultsEntry (c : SolrCollection) : SolrCollection :=
  let c := if c.configsetName == "" then { c with configsetName := c.name } else c
  let c := if c.aliasName == "" then { c with aliasName := c.name } else c
  c

/-- Embeds the loop of `SetCollectionDefaults` over the whole collections
slice. -/
def SetCollectionDefaults (collections : List SolrCollection) : List SolrCollection :=
  collections.map setCollectionDefaultsEntry

/-- Engine HTTP response as observed by the Go client: the status code, the
status line, and the `error.msg` field parsed out of the body by
`parseError`. -/
structure HttpResponse where
  statusCode : Nat
  status : String
  errorMsg : String
deriving DecidableEq, Repr

/-- Embeds `AddReplicas` from `solr_client.go`: on a non-200 response whose
parsed message contains "Not enough eligible nodes" it returns
`isScaling = true` together with a NON-nil error; on any other non-200 it
returns `false` with an error; on 200 it returns `(false, nil)`. -/
def AddReplicas (resp : HttpResponse) (collectionName : String)
    (_increaseCount : Int) : Bool × Option String :=
  if resp.statusCode != 200 then
    let msg := resp.errorMsg
    let isScaling := stringContains msg "Not enough eligible nodes"
    if !isScaling then
      (isScaling, some ("add replicas failed for collection [" ++ collectionName ++
        "] with [" ++ resp.status ++ "] [" ++ msg ++ "]"))
    else
      (isScaling, some ("add replicas failed for collection [" ++ collectionName ++
        "] because there aren't enough nodes"))
  else
    (false, none)

/-- Embeds `RemoveReplicas` from `solr_client.go`: non-200 yields an error. -/
def RemoveReplicas (resp : HttpResponse) (collectionName : String)
    (_decreaseCount : Int) : Option String :=
  if resp.statusCode != 200 then
    some ("remove replicas failed on collection " ++ collectionName ++
      " failed with [" ++ resp.status ++ "] [" ++ resp.errorMsg ++ "]")
  else none

/-- Replication adjustment record (`solr_client.go`,
`type ReplicationAdjustment`). -/
structure ReplicationAdjustment where
  currentCount : Int
  targetCount : Int
deriving DecidableEq, Repr

/-- Embeds `mapCollections` from `solr_types.go`: maps spec entries by
instance name, doubling into `_blue`/`_green` keys when blue/green is
enabled. -/
def mapCollections (specCollections : List SolrCollection)
    (isBlueGreenEnabled : Bool) : List (String × SolrCollection) :=
  specCollections.foldl (fun storage spec =>
    if isBlueGreenEnabled then
      mapInsert (mapInsert storage (spec.name ++ "_blue") spec)
        (spec.name ++ "_green") spec
    else
      mapInsert storage spec.name spec) []

/-- Embeds the execution loop at the end of `AdjustReplicas`
(`solr_types.go`): for each queued adjustment, a positive diff calls
`AddReplicas` and a non-positive diff calls `RemoveReplicas`; any non-nil
error returns `(false, err)` IMMEDIATELY — this check precedes the
`isScaling` check — and `isScaling = true` with a nil error would return
`(true, nil)`. Responses are supplied by per-collection oracles. -/
def adjustReplicasLoop (addResp removeResp : String → HttpResponse) :
    List (String × ReplicationAdjustment) → Bool × Option String
  | [] => (false, none)
  | (collection, adjustment) :: rest =>
    let diff := adjustment.targetCount - adjustment.currentCount
    if diff > 0 then
      let r := AddReplicas (addResp collection) collection diff
      match r.2 with
      | some e => (false, some e)
      | none => if r.1 then (true, none) else adjustReplicasLoop addResp removeResp rest
    else
      match RemoveReplicas (removeResp collection) collection (goAbs diff) with
      | some e => (false, some e)
      | none => adjustReplicasLoop addResp removeResp rest

/-- Embeds `AdjustReplicas` from `solr_types.go`: builds the adjustment
queue (spec instances present in the cluster whose replica count differs
from the spec replication factor) and runs the execution loop. Spec
instances missing from the cluster are only logged. -/
def AdjustReplicas (addResp removeResp : String → HttpResponse)
    (replicationFactor : Int) (isBlueGreenEnabled : Bool)
    (specCollections : List SolrCollection)
    (solrCollections : List (String × Collection)) : Bool × Option String :=
  let specCollectionsMap := mapCollections specCollections isBlueGreenEnabled
  let adjustReplicas := specCollectionsMap.foldl (fun acc p =>
    match lookupA solrCollections p.1 with
    | none => acc
    | some collection =>
      let adjustment := replicationFactor - collection.replicaCount
      if adjustment != 0 then
        mapInsert acc p.1
          { currentCount := collection.replicaCount, targetCount := replicationFactor }
      else acc) []
  adjustReplicasLoop addResp removeResp adjustReplicas

/-- Requeue decisions the `Reconcile` tail can take after `AdjustReplicas`
(`solr_types.go` lines 259–268): a non-nil error goes to `RequeueOnError`,
`isScaling = true` would schedule the fixed `backoffRequeueSeconds = 20`
delay, and otherwise the pass ends with the default requeue. -/
inductive ReconcileOutcome : Type
  | errorRequeue
  | scalingRequeue
  | normalRequeue
deriving DecidableEq, Repr

/-- Embeds the dispatch on the `AdjustReplicas` result at the end of
`Reconcile`. -/
def reconcileAfterAdjust : Bool × Option String → ReconcileOutcome
  | (_, some _) => ReconcileOutcome.errorRequeue
  | (true, none) => ReconcileOutcome.scalingRequeue
  | (false, none) => ReconcileOutcome.normalRequeue

/-- Backpressure response oracle used in the C1 scenario: every
`ADDREPLICA` call answers HTTP 500 with the "Not enough eligible nodes"
message. -/
def c1AddResp : String → HttpResponse :=
  fun _ => { statusCode := 500
             status := "500 Server Error"
             errorMsg := "Cannot create replicas. Not enough eligible nodes." }

/-- Healthy response oracle for the remove-replica calls in the C1 scenario. -/
def c1RemoveResp : String → HttpResponse :=
  fun _ => { statusCode := 200
             status := "200 OK"
             errorMsg := "" }

/-- Observed cluster collections in the C1 scenario: `x_blue` is one replica
short, `x_green` is converged. -/
def c1Solr : List (String × Collection) :=
  [("x_blue", { name := "x_blue"
                replicationFactor := 3
                replicaCount := 1
                configName := "x" }),
   ("x_green", { name := "x_green"
                 replicationFactor := 3
                 replicaCount := 3
                 configName := "x" })]

/-- Spec collections in the C1 scenario. -/
def c1Spec : List SolrCollection :=
  [{ name := "x", aliasName := "x", configsetName := "x" }]

/-- Condition reason constant from `solr_types.go`. -/
def reasonSolrCollectionSetStable : String := "stable"

/-- Condition reason constant from `solr_types.go`. -/
def reasonSolrCollectionSetScalingIn : String := "scalingIn"

/-- Condition reason constant from `solr_types.go`. -/
def reasonSolrCollectionSetScalingOut : String := "scalingOut"

/-- Condition reason constant from `solr_types.go`. -/
def reasonSolrCollectionAddingCollections : String := "addingCollections"

/-- Condition reason constant from `solr_types.go`. -/
def reasonSolrCollectionRemovingCollections : String := "removingCollections"

/-- Condition reason constant from `solr_types.go`. -/
def reasonSolrCollectionReplicationFactorMismatch : String := "replicationFactorMismatch"

/-- Event name constant from `solr_types.go`. -/
def eventSolrCollectionSetScaleOut : String := "ScaleOut"

/-- Event name constant from `solr_types.go`. -/
def eventSolrCollectionSetScaleIn : String := "ScaleIn"

/-- Event name constant from `solr_types.go`. -/
def eventSolrCollectionSetAddingCollection : String := "AddingCollection"

/-- Event name constant from `solr_types.go`. -/
def eventSolrCollectionSetRemovingCollection : String := "RemovingCollection"

/-- Per-instance status record
(`api/v1/solrcollectionset_types.go`, `type SolrCollectionStatus`);
the source field `Exists` is spelled `exists_` because `exists` cannot be
an identifier here. -/
structure SolrCollectionStatus where
  name : String
  instanceName : String
  configSet : String
  exists_ : Bool
  active : Bool
  blueGreen : Bool
  replicationFactor : Int
  replicaCount : Int
  replicationStatus : String
deriving DecidableEq, Repr

/-- Identity fields of a `metav1.Condition` as compared by
`conditionsEqual` in `solr_types.go` (type, status, reason, message);
the status string is one of "True"/"False"/"Unknown". -/
structure Condition where
  condType : String
  status : String
  reason : String
  message : String
deriving DecidableEq, Repr

/-- Embeds `newSolrSectionStatus` from `solr_types.go`: a seed status with
only spec data; an empty instance name means blue/green is off. -/
def newSolrSectionStatus (collectionSpec : SolrCollection)
    (instanceName : String) : SolrCollectionStatus :=
  let isBlueGreen := if instanceName != "" then true else false
  { name := collectionSpec.name
    instanceName := instanceName
    configSet := collectionSpec.configsetName
    replicationFactor := 0
    exists_ := false
    active := false
    replicaCount := 0
    blueGreen := isBlueGreen
    replicationStatus := "--" }

/-- Embeds `countSolrCollections` from `solr_types.go`: counts cluster
collections whose `Name` does not start with `_`. -/
def countSolrCollections (collections : List (String × Collection)) : Int :=
  ((collections.filter (fun p => !(hasPrefixStr p.2.name "_"))).length : Int)

/-- Embeds `countSpecifiedCollections` from `solr_types.go`. -/
def countSpecifiedCollections (collections : List SolrCollection)
    (isBlueGreenEnabled : Bool) : Int :=
  (collections.length : Int) * (if isBlueGreenEnabled then 2 else 1)

/-- Embeds the reverse-alias loop shared by `populateCollectionSetStatus`
and `ManageCollections`: `for alias, collection := range aliases {
collectionsToAliasesMap[collection] = alias }`. -/
def reverseAliases (aliases : List (String × String)) : List (String × String) :=
  aliases.foldl (fun acc p => mapInsert acc p.2 p.1) []

/-- Embeds one iteration of the seeding loop of
`populateCollectionSetStatus`: with blue/green on, the source iterates the
suffix list `["_blue", "_green"]`, which is unrolled here. -/
def seedStep (isBlueGreenEnabled : Bool)
    (m : List (String × SolrCollectionStatus)) (collectionSpec : SolrCollection) :
    List (String × SolrCollectionStatus) :=
  if isBlueGreenEnabled then
    let b := collectionSpec.name ++ "_blue"
    let g := collectionSpec.name ++ "_green"
    mapInsert (mapInsert m b (newSolrSectionStatus collectionSpec b)) g
      (newSolrSectionStatus collectionSpec g)
  else
    mapInsert m collectionSpec.name (newSolrSectionStatus collectionSpec "")

/-- Embeds the seeding loop of `populateCollectionSetStatus`: one seed
status per desired instance, keyed by instance name (`<name>_blue` and
`<name>_green` when blue/green is on, the plain name with an empty
instance-name field otherwise). -/
def seedStatusMap (isBlueGreenEnabled : Bool)
    (collections : List SolrCollection) : List (String × SolrCollectionStatus) :=
  collections.foldl (seedStep isBlueGreenEnabled) []

/-- Mutable state threaded through the observed-collections loop of
`populateCollectionSetStatus`: the stability flag, the pending unstable
reason, the event map and the per-instance status map. -/
structure PopState where
  isStable : Bool
  unstableReason : String
  events : List (String × String)
  statusMap : List (String × SolrCollectionStatus)
deriving DecidableEq, Repr

/-- Pointwise update of the status object held under a key, modelling the
in-place mutation through the `*SolrCollectionStatus` pointer held in the
Go map. -/
def updateA {α : Type} (m : List (String × α)) (k : String) (f : α → α) :
    List (String × α) :=
  m.map (fun p => if p.1 == k then (p.1, f p.2) else p)

/-- Embeds the stability/event mutations of one iteration of the
observed-collections loop of `populateCollectionSetStatus`
(`solr_types.go` lines 456–481): the replication-factor comparison runs
first, then the replica-count comparison — each overwrites
`unstableReason` when it fires. -/
def populateStepStability (collectionSetName namespaceName : String)
    (collectionSetReplicationFactor : Int) (st : PopState)
    (collection : Collection) : PopState :=
  let st :=
    if collectionSetReplicationFactor != collection.replicationFactor then
      { st with isStable := false
                unstableReason := reasonSolrCollectionReplicationFactorMismatch }
    else st
  if collection.replicaCount != collection.replicationFactor then
    if collection.replicaCount < collection.replicationFactor then
      { st with isStable := false
                unstableReason := reasonSolrCollectionSetScalingOut
                events := mapInsert st.events eventSolrCollectionSetScaleOut
                  ("SolrCollectionSpec [" ++ collectionSetName ++
                   "] is in namespace [" ++ namespaceName ++
                   "] is scaling out from [" ++ toString collection.replicaCount ++
                   "] replicas to [" ++ toString collection.replicationFactor ++ "]") }
    else if collection.replicaCount > collection.replicationFactor then
      { st with isStable := false
                unstableReason := reasonSolrCollectionSetScalingIn
                events := mapInsert st.events eventSolrCollectionSetScaleIn
                  ("SolrCollectionSpec [" ++ collectionSetName ++
                   "] is in namespace [" ++ namespaceName ++
                   "] is scaling in from [" ++ toString collection.replicaCount ++
                   "] replicas to [" ++ toString collection.replicationFactor ++ "]") }
    else st
  else st

/-- Embeds one iteration of the observed-collections loop of
`populateCollectionSetStatus` (`solr_types.go` lines 437–493): reserved
collections are skipped, the active flag is computed from the reverse-alias
map, the stability fields are mutated, and the status entry for the map key
is updated in place when present. Note the source computes
`collectionName = strings.TrimSuffix(name, "_blue")` and then overwrites it
with `strings.TrimSuffix(name, "_green")` — the first assignment is dead,
so only a `_green` suffix is ever stripped before the reverse-alias
lookup. -/
def populateStep (collectionSetName namespaceName : String)
    (collectionSetReplicationFactor : Int) (isBlueGreenEnabled : Bool)
    (collectionsToAliasesMap : List (String × String))
    (st : PopState) (entry : String × Collection) : PopState :=
  let name := entry.1
  let collection := entry.2
  if hasPrefixStr collection.name "_" then st
  else
    let isActive : Bool :=
      if isBlueGreenEnabled then
        let collectionName := trimSuffix name "_green"
        (lookupA collectionsToAliasesMap collectionName).isSome
      else true
    let st := populateStepStability collectionSetName namespaceName
      collectionSetReplicationFactor st collection
    let replicationStatus :=
      toString collection.replicaCount ++ "/" ++ toString collection.replicationFactor
    match lookupA st.statusMap name with
    | none => st
    | some _ =>
      { st with statusMap := updateA st.statusMap name (fun s =>
          { s with replicationFactor := collection.replicationFactor
                   replicaCount := collection.replicaCount
                   replicationStatus := replicationStatus
                   active := isActive
                   exists_ := true }) }

/-- Result of `populateCollectionSetStatus`: the fields of the new
`SolrCollectionSetStatus` that the source fills (the per-instance list is
kept keyed by the Go map key, which the source drops when copying values
into the slice), the computed `Stable` condition (its identity fields are
what `SetStatusCondition` records whether or not it replaces an existing
condition, by the `conditionsEqual` comparison), and the event map. -/
structure PopulateResult where
  replicationFactor : Int
  readyRatio : String
  solrCollections : List (String × SolrCollectionStatus)
  stableCondition : Condition
  events : List (String × String)
deriving DecidableEq, Repr

/-- Embeds `populateCollectionSetStatus` from `solr_types.go`. The
collection-count comparison runs first and may set an
adding/removing reason and event; then every observed collection is folded
through `populateStep` (the int32 conversion inside `abs(int32(...))`
cannot overflow since both counts are list lengths); finally the `Stable`
condition is assembled, with reason "stable" when no instability was
recorded. -/
def populateCollectionSetStatus (collectionSetName namespaceName : String)
    (collectionSetReplicationFactor : Int) (isBlueGreenEnabled : Bool)
    (collections : List SolrCollection) (clusterStatus : ClusterStatus) :
    PopulateResult :=
  let specifiedCollectionCount := countSpecifiedCollections collections isBlueGreenEnabled
  let solrCollectionsCount := countSolrCollections clusterStatus.collections
  let init :=
    if specifiedCollectionCount != solrCollectionsCount then
      let number0 := goAbs (specifiedCollectionCount - solrCollectionsCount)
      let number := if isBlueGreenEnabled then number0 / 2 else number0
      if specifiedCollectionCount < solrCollectionsCount then
        (false, reasonSolrCollectionRemovingCollections,
          [(eventSolrCollectionSetRemovingCollection,
            "SolrCollectionSpec [" ++ collectionSetName ++ "] is in namespace [" ++
            namespaceName ++ "] is removing [" ++ toString number ++ "] collections")])
      else if specifiedCollectionCount > solrCollectionsCount then
        (false, reasonSolrCollectionAddingCollections,
          [(eventSolrCollectionSetAddingCollection,
            "SolrCollectionSpec [" ++ collectionSetName ++ "] is in namespace [" ++
            namespaceName ++ "] is adding [" ++ toString number ++ "] collections")])
      else (false, "", [])
    else (true, "", [])
  let readyRatio := toString solrCollectionsCount ++ "/" ++ toString specifiedCollectionCount
  let collectionsToAliasesMap := reverseAliases clusterStatus.aliases
  let st0 : PopState :=
    { isStable := init.1
      unstableReason := init.2.1
      events := init.2.2
      statusMap := seedStatusMap isBlueGreenEnabled collections }
  let st := clusterStatus.collections.foldl
    (populateStep collectionSetName namespaceName collectionSetReplicationFactor
      isBlueGreenEnabled collectionsToAliasesMap) st0
  let stableStatus := if st.isStable then "True" else "False"
  let finalReason := if st.isStable then reasonSolrCollectionSetStable else st.unstableReason
  let stableMessage := if st.isStable then "" else "Spec and cluster status are not aligned"
  { replicationFactor := collectionSetReplicationFactor
    readyRatio := readyRatio
    solrCollections := st.statusMap
    stableCondition :=
      { condType := "Stable"
        status := stableStatus
        reason := finalReason
        message := stableMessage }
    events := st.events }


/-- Desired-instance expansion written from the spec's words ("for each
spec entry `s` emit two instances `s.name+_blue` and `s.name+_green` ...
else emit one instance `s.name`"), used as the comparison side for C10. -/
def desiredInstanceNames (isBlueGreenEnabled : Bool)
    (collections : List SolrCollection) : List String :=
  if isBlueGreenEnabled then
    (collections.map (fun s => [s.name ++ "_blue", s.name ++ "_green"])).flatten
  else collections.map (fun s => s.name)

/-- Observed cluster of the C2 scenario: both blue/green instances of `x`
exist and converged, and the alias `x` points at `x_blue`. -/
def c2Cluster : ClusterStatus :=
  { collections :=
      [("x_blue", { name := "x_blue"
                    replicationFactor := 1
                    replicaCount := 1
                    configName := "x" }),
       ("x_green", { name := "x_green"
                     replicationFactor := 1
                     replicaCount := 1
                     configName := "x" })]
    aliases := [("x", "x_blue")] }

/-- Status document computed in the C2 scenario. -/
def c2Result : PopulateResult :=
  populateCollectionSetStatus "foo" "default" 1 true
    [{ name := "x", aliasName := "x", configsetName := "x" }] c2Cluster

/-- Observed cluster of the C3 scenario: the single collection `c` has
replication factor 2 (spec says 3: replication-factor mismatch) and one
replica (replica-count mismatch on the same collection). -/
def c3Cluster : ClusterStatus :=
  { collections := [("c", { name := "c"
                            replicationFactor := 2
                            replicaCount := 1
                            configName := "c" })]
    aliases := [] }

/-- Status document computed in the C3 scenario (spec replication factor
3, blue/green off). -/
def c3Result : PopulateResult :=
  populateCollectionSetStatus "foo" "default" 3 false
    [{ name := "c", aliasName := "c", configsetName := "c" }] c3Cluster

/-- Observed cluster of the C4 scenario: `x_blue`, `x_green` converged and
aliased, plus an extra non-reserved collection `y` absent from the spec. -/
def c4Cluster : ClusterStatus :=
  { collections :=
      [("x_blue", { name := "x_blue"
                    replicationFactor := 1
                    replicaCount := 1
                    configName := "x" }),
       ("x_green", { name := "x_green"
                     replicationFactor := 1
                     replicaCount := 1
                     configName := "x" }),
       ("y", { name := "y"
               replicationFactor := 1
               replicaCount := 1
               configName := "y" })]
    aliases := [("x", "x_blue")] }

/-- Status document computed in the C4 scenario (one spec collection `x`,
blue/green on, replication factor 1). -/
def c4Result : PopulateResult :=
  populateCollectionSetStatus "foo" "default" 1 true
    [{ name := "x", aliasName := "x", configsetName := "x" }] c4Cluster

/-- Change-plan buckets computed by `ManageCollections` (`solr_types.go`
lines 810–855): collections to create, aliases to delete (keyed by the
COLLECTION name, with the alias as the value, exactly as the source stores
them), collections to delete (the value is the Go zero-value spec, since
the source reads the map with a missing key), and replication-factor
adjustments. -/
structure CollectionsPlan where
  createCollectionsMap : List (String × SolrCollection)
  deleteAliasesMap : List (String × String)
  deleteCollectionsMap : List (String × SolrCollection)
  adjustReplicationFactorMap : List (String × Collection)
deriving DecidableEq, Repr

/-- Embeds one iteration of the cleanup loop of `ManageCollections`: an
observed collection absent from the spec expansion and not `_`-prefixed is
queued for deletion, and its reverse-alias entry, when present, is queued
as `deleteAliasesMap[collectionName] = alias`. -/
def deletePlanStep (specCollectionsMap : List (String × SolrCollection))
    (collectionsToAliasesMap : List (String × String))
    (acc : List (String × SolrCollection) × List (String × String))
    (p : String × Collection) :
    List (String × SolrCollection) × List (String × String) :=
  let collectionName := p.1
  if (lookupA specCollectionsMap collectionName).isNone &&
      !(hasPrefixStr collectionName "_") then
    let dc := mapInsert acc.1 collectionName
      { name := "", aliasName := "", configsetName := "" }
    match lookupA collectionsToAliasesMap collectionName with
    | some a => (dc, mapInsert acc.2 collectionName a)
    | none => (dc, acc.2)
  else acc

/-- Embeds the planning part of `ManageCollections` (`solr_types.go`): the
four action maps computed from the spec expansion, the observed
collections and the aliases. -/
def manageCollectionsPlan (replicationFactor : Int)
    (isBlueGreenEnabled isCleanupEnabled : Bool)
    (specCollections : List SolrCollection)
    (solrCollections : List (String × Collection))
    (aliases : List (String × String)) : CollectionsPlan :=
  let collectionsToAliasesMap := reverseAliases aliases
  let specCollectionsMap := mapCollections specCollections isBlueGreenEnabled
  let createCollectionsMap := specCollectionsMap.foldl (fun acc p =>
    if (lookupA solrCollections p.1).isNone then mapInsert acc p.1 p.2 else acc) []
  let deletePair :=
    if isCleanupEnabled then
      solrCollections.foldl
        (deletePlanStep specCollectionsMap collectionsToAliasesMap) ([], [])
    else ([], [])
  let adjustReplicationFactorMap := solrCollections.foldl (fun acc p =>
    if (lookupA specCollectionsMap p.1).isSome then
      if p.2.replicationFactor != replicationFactor then
        mapInsert acc p.1 p.2
      else acc
    else acc) []
  { createCollectionsMap := createCollectionsMap
    deleteAliasesMap := deletePair.2
    deleteCollectionsMap := deletePair.1
    adjustReplicationFactorMap := adjustReplicationFactorMap }

/-- Engine mutations issued by the execution part of `ManageCollections`. -/
inductive SolrOp : Type
  | createCollection (name configsetName : String) (replicationFactor : Int)
  | assignAlias (aliasName collectionName : String)
  | deleteAlias (name : String)
  | deleteCollection (name : String)
  | setReplicationFactor (name : String) (replicationFactor : Int)
deriving DecidableEq, Repr

/-- Embeds the call sequence of the execution part of `ManageCollections`
(`solr_types.go` lines 857–915). Every per-operation error is only logged
in the source, so the sequence of calls is fully determined by the plan
and the alias map: a create is followed by an `assignAlias` when
blue/green is on and the spec alias is absent from the (unchanging) alias
map; the alias-delete loop iterates the KEYS of `deleteAliasesMap`, which
are collection names, not the stored alias values. -/
def manageCollectionsOps (replicationFactor : Int)
    (isBlueGreenEnabled isCleanupEnabled : Bool)
    (specCollections : List SolrCollection)
    (solrCollections : List (String × Collection))
    (aliases : List (String × String)) : List SolrOp :=
  let plan := manageCollectionsPlan replicationFactor isBlueGreenEnabled
    isCleanupEnabled specCollections solrCollections aliases
  let createOps := plan.createCollectionsMap.foldl (fun acc p =>
    let acc := acc ++ [SolrOp.createCollection p.1 p.2.configsetName replicationFactor]
    if isBlueGreenEnabled then
      if (lookupA aliases p.2.aliasName).isNone then
        acc ++ [SolrOp.assignAlias p.2.aliasName p.1]
      else acc
    else acc) []
  let aliasOps := plan.deleteAliasesMap.foldl (fun acc p =>
    acc ++ [SolrOp.deleteAlias p.1]) []
  let deleteOps := plan.deleteCollectionsMap.foldl (fun acc p =>
    acc ++ [SolrOp.deleteCollection p.1]) []
  let rfOps := plan.adjustReplicationFactorMap.foldl (fun acc p =>
    acc ++ [SolrOp.setReplicationFactor p.1 replicationFactor]) []
  createOps ++ aliasOps ++ deleteOps ++ rfOps

/-- Execution trace of `ManageCollections` under a per-operation failure
oracle: each call is performed and its error, if any, is logged (recorded
here as the Boolean paired with the call) without stopping the loop. -/
def manageCollectionsExec (fails : SolrOp → Bool) (replicationFactor : Int)
    (isBlueGreenEnabled isCleanupEnabled : Bool)
    (specCollections : List SolrCollection)
    (solrCollections : List (String × Collection))
    (aliases : List (String × String)) : List (SolrOp × Bool) :=
  (manageCollectionsOps replicationFactor isBlueGreenEnabled isCleanupEnabled
    specCollections solrCollections aliases).map (fun op => (op, fails op))

/-- Configmap data relevant to `ManageConfigSets`, keyed (outside this
structure) by the `collection` label: the configmap object name (used in
error messages) and the base64 `configset` payload. -/
structure ConfigMapInfo where
  mapName : String
  configset : String
deriving DecidableEq, Repr

/-- Embeds one iteration of the upload-decision loop of `ManageConfigSets`
(`solr_types.go` lines 713–738): upload when the configset is absent from
the engine, when no checksum is stored, or when the stored checksum
differs from the MD5 of the base64 payload. The digest is an
uninterpreted function parameter (`crypto/md5` is external). -/
def uploadDecisionStep (hash : String → String) (solrConfigSets : List String)
    (configSetChecksums : List (String × String))
    (acc : List (String × ConfigMapInfo)) (p : String × ConfigMapInfo) :
    List (String × ConfigMapInfo) :=
  let name := p.1
  if !(containsStr solrConfigSets name) then mapInsert acc name p.2
  else
    let specChecksum := hash p.2.configset
    match lookupA configSetChecksums name with
    | none => mapInsert acc name p.2
    | some solrChecksum =>
      if specChecksum != solrChecksum then mapInsert acc name p.2 else acc

/-- Embeds the upload-decision loop of `ManageConfigSets`. -/
def computeConfigMapsToUpload (hash : String → String)
    (solrConfigSets : List String) (configSetChecksums : List (String × String))
    (configMaps : List (String × ConfigMapInfo)) : List (String × ConfigMapInfo) :=
  configMaps.foldl (uploadDecisionStep hash solrConfigSets configSetChecksums) []

/-- Embeds the remove-decision loop of `ManageConfigSets` (`solr_types.go`
lines 740–749): only when cleanup is enabled, engine configsets without a
configmap and without a `_` prefix are queued for deletion. -/
def computeConfigMapsToRemove (isCleanupEnabled : Bool)
    (solrConfigSets : List String)
    (configMaps : List (String × ConfigMapInfo)) : List (String × String) :=
  if isCleanupEnabled then
    solrConfigSets.foldl (fun acc name =>
      if (lookupA configMaps name).isNone && !(hasPrefixStr name "_") then
        mapInsert acc name name
      else acc) []
  else []

/-- Engine calls issued by the execution part of `ManageConfigSets`. -/
inductive ConfigOp : Type
  | uploadConfigSet (name : String)
  | writeRecord (collectionName : String)
  | deleteConfigSet (name : String)
deriving DecidableEq, Repr

/-- Embeds the upload-processing loop of `ManageConfigSets`
(`solr_types.go` lines 751–771): a base64 decode failure, an upload
failure or a checksum-write failure each RETURNS from the function at
once, so the remaining queued uploads are not attempted. The performed
calls are returned together with the error. Base64 decoding is an
uninterpreted parameter (`encoding/base64` is external); failure oracles
stand for the engine's responses. -/
def processUploads (b64decode : String → Option String)
    (uploadFails writeFails : String → Bool) (checksumCollectionName : String) :
    List (String × ConfigMapInfo) → List ConfigOp × Option String
  | [] => ([], none)
  | (collection, configMap) :: rest =>
    match b64decode configMap.configset with
    | none => ([], some ("could not base64 decode 'configset' property on configmap " ++
        configMap.mapName ++ " for collection " ++ collection))
    | some _ =>
      if uploadFails collection then
        ([ConfigOp.uploadConfigSet collection],
          some ("could not upload configset " ++ collection))
      else if writeFails collection then
        ([ConfigOp.uploadConfigSet collection, ConfigOp.writeRecord collection],
          some ("could not write checksum to " ++ checksumCollectionName ++
            " for collection " ++ collection))
      else
        let r := processUploads b64decode uploadFails writeFails
          checksumCollectionName rest
        (ConfigOp.uploadConfigSet collection :: ConfigOp.writeRecord collection :: r.1,
          r.2)

/-- Embeds the remove-processing loop of `ManageConfigSets`
(`solr_types.go` lines 773–779): a delete failure returns at once. -/
def processRemoves (deleteFails : String → Bool) :
    List (String × String) → List ConfigOp × Option String
  | [] => ([], none)
  | (name, _) :: rest =>
    if deleteFails name then
      ([ConfigOp.deleteConfigSet name],
        some ("could not clean up config set [" ++ name ++ "]"))
    else
      let r := processRemoves deleteFails rest
      (ConfigOp.deleteConfigSet name :: r.1, r.2)

/-- Effect of the checksum bookkeeping on the store as later observed
through `Query` plus the `{collection → checksum}` projection: the write
of the record built at `solr_types.go` lines 763–767 replaces the entry
for the collection with the MD5 of the base64 payload as received. -/
def writeChecksumRecord (store : List (String × String))
    (collectionName digest : String) : List (String × String) :=
  mapInsert store collectionName digest

/-- Configmap list of the C8 scenario: two collections queued for upload. -/
def c8ConfigMaps : List (String × ConfigMapInfo) :=
  [("a", { mapName := "cm-a", configset := "YQ==" }),
   ("b", { mapName := "cm-b", configset := "Yg==" })]

-- ===== Claim theorems and supporting lemmas =====

/-- Helper for the C1 analysis: the loop can only answer
`isScaling = true` through the dead `if r.1` branch, and `AddReplicas`
never pairs `isScaling = true` with a nil error, so the loop never reports
scaling. -/
theorem adjustReplicasLoop_never_scaling (addResp removeResp : String → HttpResponse)
    (l : List (String × ReplicationAdjustment)) :
    (adjustReplicasLoop addResp removeResp l).1 = false := by
  induction l with
  | nil => rfl
  | cons hd tl ih =>
    obtain ⟨collection, adjustment⟩ := hd
    unfold adjustReplicasLoop
    dsimp only
    by_cases hdiff : adjustment.targetCount - adjustment.currentCount > 0
    · simp only [hdiff, if_true]
      unfold AddReplicas
      by_cases hcode : (addResp collection).statusCode != 200
      · simp only [hcode, if_true]
        by_cases hscal :
            stringContains (addResp collection).errorMsg "Not enough eligible nodes"
        · simp [hscal]
        · simp [hscal]
      · simp only [hcode, if_false]
        simpa using ih
    · simp only [hdiff, if_false]
      cases hrem : RemoveReplicas (removeResp collection) collection
          (goAbs (adjustment.targetCount - adjustment.currentCount)) with
      | none => simpa [hrem] using ih
      | some e => simp [hrem]

/-- C1: the claim says a backpressure answer from `addReplicas` makes
`AdjustReplicas` return `(scaling = true, err = nil)` and the Controller
schedule the fixed 20-second requeue. In the source, `AddReplicas` pairs
`isScaling = true` with a NON-nil error, and `AdjustReplicas` checks
`err != nil` before `isScaling`, so the pass takes the error path instead:
(i) `AdjustReplicas` never returns `isScaling = true` on any input, and
(ii) on the concrete backpressure scenario of the claim the result is
`(false, some err)` and `Reconcile` dispatches to `RequeueOnError`, not to
the scaling requeue. This contradicts the source's own comments ("In that
case isScaling will return true", "Don't error if scaling is happening"). -/
theorem c1_backpressure_code_bug :
    (∀ (addResp removeResp : String → HttpResponse) (replicationFactor : Int)
      (isBlueGreenEnabled : Bool) (specCollections : List SolrCollection)
      (solrCollections : List (String × Collection)),
      (AdjustReplicas addResp removeResp replicationFactor isBlueGreenEnabled
        specCollections solrCollections).1 = false) ∧
    (AdjustReplicas c1AddResp c1RemoveResp 3 true c1Spec c1Solr =
      (false, some "add replicas failed for collection [x_blue] because there aren't enough nodes")) ∧
    (reconcileAfterAdjust (AdjustReplicas c1AddResp c1RemoveResp 3 true c1Spec c1Solr) =
      ReconcileOutcome.errorRequeue) := by
  refine ⟨?_, ?_, ?_⟩
  · intro addResp removeResp replicationFactor isBlueGreenEnabled specCollections solrCollections
    unfold AdjustReplicas
    exact adjustReplicasLoop_never_scaling _ _ _
  · decide
  · decide

/-- C5: the claim (and the field's own doc comment, "If not provided this
will be the same as alias") says an absent `configsetName` defaults to the
entry's alias; the source `SetCollectionDefaults` fills it with the entry's
NAME instead. For name = "n", alias = "a", empty configsetName the defaulted
configsetName is "n", not "a". -/
theorem c5_configset_default_code_bug :
    (setCollectionDefaultsEntry
        { name := "n", aliasName := "a", configsetName := "" }).configsetName = "n" ∧
    (setCollectionDefaultsEntry
        { name := "n", aliasName := "a", configsetName := "" }).configsetName ≠ "a" ∧
    SetCollectionDefaults [{ name := "n", aliasName := "a", configsetName := "" }] =
      [{ name := "n", aliasName := "a", configsetName := "n" }] := by
  refine ⟨by decide, by decide, by decide⟩

/-- C9: the claim says the `replicationFactor` decoder is total and yields 0
for an absent field. The source `interfaceToInt32` does normalize integer-
and string-typed values to a signed 32-bit integer, but on the nil interface
(absent field) it calls `reflect.TypeOf(nil).Kind()`, which panics — there
is no value returned at all (modelled as `none`). -/
theorem c9_interface_to_int32_code_bug :
    interfaceToInt32 (JsonVal.jint64 3) = some 3 ∧
    interfaceToInt32 (JsonVal.jstring "3") = some 3 ∧
    interfaceToInt32 (JsonVal.jint64 4294967299) = some 3 ∧
    interfaceToInt32 JsonVal.jnull = none ∧
    interfaceToInt32 JsonVal.jnull ≠ some 0 := by
  refine ⟨by decide, by decide, by decide, by decide, by decide⟩

/-- Lookup in the empty association list. -/
theorem lookupA_nil {α : Type} (k : String) : lookupA ([] : List (String × α)) k = none := rfl

/-- Cons characterization of association lookup. -/
theorem lookupA_cons {α : Type} (a : String × α) (l : List (String × α)) (k : String) :
    lookupA (a :: l) k = if a.1 = k then some a.2 else lookupA l k := by
  unfold lookupA
  rw [List.find?_cons]
  by_cases hb : a.1 = k
  · have : (a.1 == k) = true := by simpa using hb
    rw [this]
    simp [hb]
  · have : (a.1 == k) = false := by simpa using hb
    rw [this]
    simp [hb]

/-- Update of the empty association list. -/
theorem updateA_nil {α : Type} (k : String) (f : α → α) :
    updateA ([] : List (String × α)) k f = [] := rfl

/-- Cons characterization of the in-place update. -/
theorem updateA_cons {α : Type} (a : String × α) (l : List (String × α))
    (k : String) (f : α → α) :
    updateA (a :: l) k f =
      (if a.1 = k then (a.1, f a.2) else a) :: updateA l k f := by
  unfold updateA
  rw [List.map_cons]
  by_cases hb : a.1 = k
  · have : (a.1 == k) = true := by simpa using hb
    simp [this, hb]
  · have : (a.1 == k) = false := by simpa using hb
    simp [this, hb]

/-- Association lookup after inserting at the same key yields the inserted
value. -/
theorem lookupA_mapInsert_self {α : Type} (m : List (String × α)) (k : String)
    (v : α) : lookupA (mapInsert m k v) k = some v := by
  unfold mapInsert
  induction m with
  | nil => simp [lookupA_cons]
  | cons a l ih =>
    rw [List.filter_cons]
    by_cases hb : a.1 = k
    · have : (a.1 != k) = false := by simpa using hb
      rw [this]
      simpa using ih
    · have : (a.1 != k) = true := by simpa using hb
      rw [this]
      simpa [lookupA_cons, hb] using ih

/-- Association lookup at a different key is unchanged by an insertion. -/
theorem lookupA_mapInsert_ne {α : Type} (m : List (String × α)) (k k' : String)
    (v : α) (h : k ≠ k') : lookupA (mapInsert m k' v) k = lookupA m k := by
  unfold mapInsert
  induction m with
  | nil =>
    have h2 : k' ≠ k := fun hc => h hc.symm
    simp [lookupA_cons, lookupA_nil, h2]
  | cons a l ih =>
    rw [List.filter_cons]
    by_cases hb : a.1 = k'
    · have hf : ¬ ((a.1 != k') = true) := by simpa using hb
      have hak : a.1 ≠ k := by rw [hb]; exact fun hc => h hc.symm
      rw [if_neg hf, ih, lookupA_cons, if_neg hak]
    · have hf : (a.1 != k') = true := by simpa using hb
      rw [if_pos hf, List.cons_append, lookupA_cons, lookupA_cons]
      by_cases hak : a.1 = k
      · rw [if_pos hak, if_pos hak]
      · rw [if_neg hak, if_neg hak, ih]

/-- A successful association lookup is a membership witness. -/
theorem lookupA_mem {α : Type} {m : List (String × α)} {k : String} {v : α}
    (h : lookupA m k = some v) : (k, v) ∈ m := by
  induction m with
  | nil => rw [lookupA_nil] at h; exact absurd h (by simp)
  | cons a l ih =>
    rw [lookupA_cons] at h
    by_cases hb : a.1 = k
    · rw [if_pos hb] at h
      have hv : a.2 = v := Option.some.inj h
      have : a = (k, v) := by
        obtain ⟨a1, a2⟩ := a
        simp at hb hv
        rw [hb, hv]
      rw [← this]
      exact List.mem_cons_self a l
    · rw [if_neg hb] at h
      exact List.mem_cons_of_mem a (ih h)

/-- Lookup after an in-place update at the same key applies the update. -/
theorem lookupA_updateA_self {α : Type} (m : List (String × α)) (k : String)
    (f : α → α) {v : α} (h : lookupA m k = some v) :
    lookupA (updateA m k f) k = some (f v) := by
  induction m with
  | nil => rw [lookupA_nil] at h; exact absurd h (by simp)
  | cons a l ih =>
    rw [lookupA_cons] at h
    rw [updateA_cons]
    by_cases hb : a.1 = k
    · rw [if_pos hb] at h
      have hv : a.2 = v := Option.some.inj h
      rw [if_pos hb, lookupA_cons, if_pos hb, hv]
    · rw [if_neg hb] at h
      rw [if_neg hb, lookupA_cons, if_neg hb]
      exact ih h

/-- Lookup at a different key is unchanged by an in-place update. -/
theorem lookupA_updateA_ne {α : Type} (m : List (String × α)) (k k' : String)
    (f : α → α) (h : k ≠ k') :
    lookupA (updateA m k' f) k = lookupA m k := by
  induction m with
  | nil => rfl
  | cons a l ih =>
    rw [updateA_cons, lookupA_cons, lookupA_cons]
    by_cases hb : a.1 = k'
    · have hak : a.1 ≠ k := by rw [hb]; exact fun hc => h hc.symm
      rw [if_pos hb]
      show (if a.1 = k then some (f a.2) else lookupA (updateA l k' f) k) = _
      rw [if_neg hak, if_neg hak, ih]
    · rw [if_neg hb]
      by_cases hak : a.1 = k
      · rw [if_pos hak, if_pos hak]
      · rw [if_neg hak, if_neg hak, ih]

/-- An in-place update preserves the key sequence. -/
theorem updateA_map_fst {α : Type} (m : List (String × α)) (k : String)
    (f : α → α) : (updateA m k f).map Prod.fst = m.map Prod.fst := by
  induction m with
  | nil => rfl
  | cons a l ih =>
    rw [updateA_cons, List.map_cons, List.map_cons, ih]
    congr 1
    split <;> rfl

/-- Inserting a fresh key appends the binding. -/
theorem mapInsert_fresh {α : Type} (m : List (String × α)) (k : String) (v : α)
    (h : k ∉ m.map Prod.fst) : mapInsert m k v = m ++ [(k, v)] := by
  unfold mapInsert
  congr 1
  rw [List.filter_eq_self]
  intro p hp
  simp
  intro hc
  exact h (by rw [← hc]; exact List.mem_map_of_mem Prod.fst hp)

/-- The stability/event mutation leaves the status map untouched. -/
theorem populateStepStability_statusMap (csn ns : String) (rf : Int)
    (st : PopState) (c : Collection) :
    (populateStepStability csn ns rf st c).statusMap = st.statusMap := by
  unfold populateStepStability
  by_cases h1 : (rf != c.replicationFactor) = true <;>
    by_cases h2 : (c.replicaCount != c.replicationFactor) = true <;>
    by_cases h3 : c.replicaCount < c.replicationFactor <;>
    by_cases h4 : c.replicaCount > c.replicationFactor <;>
    simp [h1, h2, h3, h4]

/-- On a collection whose replica count differs from its replication
factor, the stability mutation ends with the scaling reason — whatever
reason (including a replication-factor mismatch recorded just before) was
pending — because the replica-count comparison runs last. -/
theorem populateStepStability_reason (csn ns : String) (rf : Int)
    (st : PopState) (c : Collection)
    (hrc : c.replicaCount ≠ c.replicationFactor) :
    (populateStepStability csn ns rf st c).isStable = false ∧
    (populateStepStability csn ns rf st c).unstableReason =
      (if c.replicaCount < c.replicationFactor then reasonSolrCollectionSetScalingOut
       else reasonSolrCollectionSetScalingIn) := by
  unfold populateStepStability
  have h2 : (c.replicaCount != c.replicationFactor) = true := by simpa using hrc
  by_cases h3 : c.replicaCount < c.replicationFactor
  · by_cases h1 : (rf != c.replicationFactor) = true <;> simp [h1, h2, h3]
  · have h4 : c.replicaCount > c.replicationFactor :=
      lt_of_le_of_ne (not_lt.mp h3) (Ne.symm hrc)
    by_cases h1 : (rf != c.replicationFactor) = true <;> simp [h1, h2, h3, h4]

/-- A populate step preserves the status-map key sequence. -/
theorem populateStep_statusMap_fst (csn ns : String) (rf : Int) (bg : Bool)
    (camap : List (String × String)) (st : PopState) (e : String × Collection) :
    (populateStep csn ns rf bg camap st e).statusMap.map Prod.fst =
      st.statusMap.map Prod.fst := by
  unfold populateStep
  by_cases h0 : (hasPrefixStr e.2.name "_") = true
  · simp [h0]
  · simp only [h0, Bool.false_eq_true, if_false]
    have hsm := populateStepStability_statusMap csn ns rf st e.2
    cases hl : lookupA (populateStepStability csn ns rf st e.2).statusMap e.1 with
    | none => simp [hl, hsm]
    | some s => simp [hl, hsm, updateA_map_fst]

/-- A populate step for one key leaves the status entries of other keys
unchanged. -/
theorem populateStep_lookup_other (csn ns : String) (rf : Int) (bg : Bool)
    (camap : List (String × String)) (st : PopState) (e : String × Collection)
    (key : String) (h : e.1 ≠ key) :
    lookupA (populateStep csn ns rf bg camap st e).statusMap key =
      lookupA st.statusMap key := by
  unfold populateStep
  by_cases h0 : (hasPrefixStr e.2.name "_") = true
  · simp [h0]
  · simp only [h0, Bool.false_eq_true, if_false]
    have hsm := populateStepStability_statusMap csn ns rf st e.2
    cases hl : lookupA (populateStepStability csn ns rf st e.2).statusMap e.1 with
    | none => simp [hl, hsm]
    | some s =>
      simp only [hl, hsm]
      exact lookupA_updateA_ne _ _ _ _ (Ne.symm h)

/-- A populate step for a non-reserved observed collection overrides the
seeded entry of its key: observed replication data is copied, `exists` is
set, and `active` is the reverse-alias lookup of the key with only a
trailing `_green` stripped (blue/green on) or `true` (blue/green off). -/
theorem populateStep_lookup_self (csn ns : String) (rf : Int) (bg : Bool)
    (camap : List (String × String)) (st : PopState) (key : String)
    (c : Collection) (h0 : hasPrefixStr c.name "_" = false)
    {s : SolrCollectionStatus} (h : lookupA st.statusMap key = some s) :
    lookupA (populateStep csn ns rf bg camap st (key, c)).statusMap key =
      some { s with
             replicationFactor := c.replicationFactor
             replicaCount := c.replicaCount
             replicationStatus :=
               toString c.replicaCount ++ "/" ++ toString c.replicationFactor
             active := (if bg then
               (lookupA camap (trimSuffix key "_green")).isSome else true)
             exists_ := true } := by
  unfold populateStep
  simp only [h0, Bool.false_eq_true, if_false]
  have hsm := populateStepStability_statusMap csn ns rf st c
  have hl : lookupA (populateStepStability csn ns rf st c).statusMap key = some s := by
    rw [hsm]; exact h
  simp only [hl, hsm, h]
  exact lookupA_updateA_self _ _ _ h

/-- A populate step for a non-reserved collection with a replica-count
mismatch leaves the loop state unstable with the scaling reason. -/
theorem populateStep_reason (csn ns : String) (rf : Int) (bg : Bool)
    (camap : List (String × String)) (st : PopState) (key : String)
    (c : Collection) (h0 : hasPrefixStr c.name "_" = false)
    (hrc : c.replicaCount ≠ c.replicationFactor) :
    (populateStep csn ns rf bg camap st (key, c)).isStable = false ∧
    (populateStep csn ns rf bg camap st (key, c)).unstableReason =
      (if c.replicaCount < c.replicationFactor then reasonSolrCollectionSetScalingOut
       else reasonSolrCollectionSetScalingIn) := by
  unfold populateStep
  simp only [h0, Bool.false_eq_true, if_false]
  obtain ⟨ha, hb⟩ := populateStepStability_reason csn ns rf st c hrc
  cases hl : lookupA (populateStepStability csn ns rf st c).statusMap key with
  | none => simp only [hl]; exact ⟨ha, hb⟩
  | some s => simp only [hl]; exact ⟨ha, hb⟩

/-- Folding populate steps preserves the status-map key sequence. -/
theorem foldl_populateStep_statusMap_fst (csn ns : String) (rf : Int) (bg : Bool)
    (camap : List (String × String)) (l : List (String × Collection)) :
    ∀ st : PopState,
      (l.foldl (populateStep csn ns rf bg camap) st).statusMap.map Prod.fst =
        st.statusMap.map Prod.fst := by
  induction l with
  | nil => intro st; rfl
  | cons a t ih =>
    intro st
    rw [List.foldl_cons, ih, populateStep_statusMap_fst]

/-- Folding populate steps over entries with other keys preserves a
status lookup. -/
theorem foldl_populateStep_lookup (csn ns : String) (rf : Int) (bg : Bool)
    (camap : List (String × String)) (l : List (String × Collection))
    (key : String) (h : key ∉ l.map Prod.fst) :
    ∀ st : PopState,
      lookupA (l.foldl (populateStep csn ns rf bg camap) st).statusMap key =
        lookupA st.statusMap key := by
  induction l with
  | nil => intro st; rfl
  | cons a t ih =>
    intro st
    simp only [List.map_cons, List.mem_cons] at h
    push_neg at h
    rw [List.foldl_cons, ih h.2, populateStep_lookup_other _ _ _ _ _ _ _ _
      (fun hc => h.1 hc.symm)]

/-- C3 (amended): there is no priority of `replicationFactorMismatch` over
the scaling reasons. In the per-collection loop the replication-factor
comparison runs first and the replica-count comparison runs second, each
overwriting `unstableReason`, so for any cluster state with a single
observed collection exhibiting BOTH a replication-factor mismatch and a
replica-count mismatch the recorded reason on the `Stable` condition is
`scalingOut` (or `scalingIn`), never `replicationFactorMismatch`. -/
theorem c3_amended (csn ns key : String) (rf : Int) (bg : Bool)
    (collections : List SolrCollection) (aliases : List (String × String))
    (c : Collection) (h0 : hasPrefixStr c.name "_" = false)
    (_hrf : rf ≠ c.replicationFactor)
    (hrc : c.replicaCount ≠ c.replicationFactor) :
    ((populateCollectionSetStatus csn ns rf bg collections
        { collections := [(key, c)], aliases := aliases }).stableCondition.reason =
      if c.replicaCount < c.replicationFactor then reasonSolrCollectionSetScalingOut
      else reasonSolrCollectionSetScalingIn) ∧
    (populateCollectionSetStatus csn ns rf bg collections
        { collections := [(key, c)], aliases := aliases }).stableCondition.reason ≠
      reasonSolrCollectionReplicationFactorMismatch := by
  have hmain : (populateCollectionSetStatus csn ns rf bg collections
      { collections := [(key, c)], aliases := aliases }).stableCondition.reason =
      (if c.replicaCount < c.replicationFactor then reasonSolrCollectionSetScalingOut
       else reasonSolrCollectionSetScalingIn) := by
    unfold populateCollectionSetStatus
    simp only [List.foldl_cons, List.foldl_nil]
    rw [(populateStep_reason csn ns rf bg _ _ key c h0 hrc).1,
      (populateStep_reason csn ns rf bg _ _ key c h0 hrc).2]
    simp
  refine ⟨hmain, ?_⟩
  rw [hmain]
  by_cases h3 : c.replicaCount < c.replicationFactor
  · simp only [h3, if_true]
    decide
  · simp only [h3, if_false]
    decide

/-- C2 (amended): for a desired instance observed in the cluster (its key
occurring once, not reserved), its `Active` field is true iff blue/green is
disabled OR some alias points at the string obtained from the instance name
by stripping only a trailing `_green` — the `_blue` suffix is never
stripped because the first `TrimSuffix` result is discarded. Hence an alias
pointing at `x_blue` makes `x_blue` active but leaves `x_green` inactive. -/
theorem c2_amended (csn ns : String) (rf : Int) (bg : Bool)
    (collections : List SolrCollection) (cluster : ClusterStatus)
    (l1 l2 : List (String × Collection)) (key : String) (c : Collection)
    (hsplit : cluster.collections = l1 ++ (key, c) :: l2)
    (h1 : key ∉ l1.map Prod.fst) (h2 : key ∉ l2.map Prod.fst)
    (h0 : hasPrefixStr c.name "_" = false)
    (s : SolrCollectionStatus)
    (hseed : lookupA (seedStatusMap bg collections) key = some s) :
    (lookupA (populateCollectionSetStatus csn ns rf bg collections
        cluster).solrCollections key).map SolrCollectionStatus.active =
      some (if bg then
        (lookupA (reverseAliases cluster.aliases) (trimSuffix key "_green")).isSome
        else true) := by
  unfold populateCollectionSetStatus
  simp only [hsplit, List.foldl_append, List.foldl_cons]
  rw [foldl_populateStep_lookup csn ns rf bg (reverseAliases cluster.aliases) l2 key h2]
  rw [populateStep_lookup_self csn ns rf bg (reverseAliases cluster.aliases) _ key c h0
    (by rw [foldl_populateStep_lookup csn ns rf bg (reverseAliases cluster.aliases) l1 key h1]
        exact hseed)]
  rfl

/-- Appending a fixed suffix is injective on strings. -/
theorem string_append_right_inj {a b : String} (t : String)
    (h : a ++ t = b ++ t) : a = b := by
  have hd := congrArg String.data h
  rw [String.data_append, String.data_append] at hd
  have : a.data = b.data := List.append_left_injective t.data hd
  cases a; cases b; exact congrArg String.mk this

/-- No string ends in `_blue` and `_green` at once. -/
theorem blue_green_ne (a b : String) : a ++ "_blue" ≠ b ++ "_green" := by
  intro h
  have hd := congrArg String.data h
  rw [String.data_append, String.data_append] at hd
  have hrev := congrArg List.reverse hd
  rw [List.reverse_append, List.reverse_append] at hrev
  have e1 : ("_blue".data).reverse = ['e', 'u', 'l', 'b', '_'] := by decide
  have e2 : ("_green".data).reverse = ['n', 'e', 'e', 'r', 'g', '_'] := by decide
  rw [e1, e2] at hrev
  simp at hrev

/-- Membership in the blue/green desired-instance expansion. -/
theorem mem_desired_true (t : List SolrCollection) (k : String) :
    k ∈ desiredInstanceNames true t ↔
      ∃ u ∈ t, k = u.name ++ "_blue" ∨ k = u.name ++ "_green" := by
  unfold desiredInstanceNames
  simp only [if_true, List.mem_flatten, List.mem_map]
  constructor
  · rintro ⟨l, ⟨u, hu, rfl⟩, hk⟩
    simp at hk
    exact ⟨u, hu, hk⟩
  · rintro ⟨u, hu, hk⟩
    exact ⟨[u.name ++ "_blue", u.name ++ "_green"], ⟨u, hu, rfl⟩, by simpa using hk⟩

/-- Cons equation of the blue/green desired-instance expansion. -/
theorem desired_true_cons (spec : SolrCollection) (t : List SolrCollection) :
    desiredInstanceNames true (spec :: t) =
      (spec.name ++ "_blue") :: (spec.name ++ "_green") :: desiredInstanceNames true t := by
  unfold desiredInstanceNames
  simp

/-- Cons equation of the desired-instance expansion with blue/green off. -/
theorem desired_false_cons (spec : SolrCollection) (t : List SolrCollection) :
    desiredInstanceNames false (spec :: t) =
      spec.name :: desiredInstanceNames false t := by
  unfold desiredInstanceNames
  simp

/-- With blue/green off the desired instances are exactly the spec names. -/
theorem desired_false_eq (t : List SolrCollection) :
    desiredInstanceNames false t = t.map (fun s => s.name) := by
  unfold desiredInstanceNames
  simp

/-- Seed step with blue/green off. -/
theorem seedStep_false_eq (m : List (String × SolrCollectionStatus))
    (spec : SolrCollection) :
    seedStep false m spec = mapInsert m spec.name (newSolrSectionStatus spec "") := rfl

/-- Seed step with blue/green on. -/
theorem seedStep_true_eq (m : List (String × SolrCollectionStatus))
    (spec : SolrCollection) :
    seedStep true m spec =
      mapInsert
        (mapInsert m (spec.name ++ "_blue")
          (newSolrSectionStatus spec (spec.name ++ "_blue")))
        (spec.name ++ "_green")
        (newSolrSectionStatus spec (spec.name ++ "_green")) := rfl

/-- Generalized key computation of the seeding loop: starting from an
accumulator whose keys avoid the desired names, the fold appends exactly
the desired instance names, in spec order. -/
theorem seedStatusMap_fst_aux (bg : Bool) (collections : List SolrCollection) :
    ∀ m : List (String × SolrCollectionStatus),
      (collections.map SolrCollection.name).Nodup →
      (∀ k ∈ m.map Prod.fst, k ∉ desiredInstanceNames bg collections) →
      ((collections.foldl (seedStep bg) m).map Prod.fst) =
        m.map Prod.fst ++ desiredInstanceNames bg collections := by
  induction collections with
  | nil =>
    intro m _ _
    cases bg <;> simp [desiredInstanceNames]
  | cons spec t ih =>
    intro m hnd hm
    rw [List.map_cons] at hnd
    obtain ⟨hn1, hn2⟩ := List.nodup_cons.mp hnd
    rw [List.foldl_cons]
    cases bg with
    | false =>
      have hfresh : spec.name ∉ m.map Prod.fst := by
        intro hc
        exact hm spec.name hc (by rw [desired_false_cons]; exact List.mem_cons_self _ _)
      rw [seedStep_false_eq, mapInsert_fresh m spec.name _ hfresh]
      have hfresh' : ∀ k ∈ (m ++ [(spec.name, newSolrSectionStatus spec "")]).map Prod.fst,
          k ∉ desiredInstanceNames false t := by
        intro k hk
        rw [List.map_append] at hk
        rcases List.mem_append.mp hk with hk | hk
        · intro hd
          exact hm k hk (by rw [desired_false_cons]; exact List.mem_cons_of_mem _ hd)
        · simp at hk
          intro hd
          rw [desired_false_eq] at hd
          rw [hk] at hd
          exact hn1 (by simpa using hd)
      rw [ih _ hn2 hfresh', desired_false_cons, List.map_append]
      simp
    | true =>
      have hbmem : (spec.name ++ "_blue") ∈ desiredInstanceNames true (spec :: t) := by
        rw [desired_true_cons]; exact List.mem_cons_self _ _
      have hgmem : (spec.name ++ "_green") ∈ desiredInstanceNames true (spec :: t) := by
        rw [desired_true_cons]
        exact List.mem_cons_of_mem _ (List.mem_cons_self _ _)
      have hbfresh : (spec.name ++ "_blue") ∉ m.map Prod.fst :=
        fun hc => hm _ hc hbmem
      have hgfresh : (spec.name ++ "_green") ∉ m.map Prod.fst :=
        fun hc => hm _ hc hgmem
      have hgb : (spec.name ++ "_green") ≠ (spec.name ++ "_blue") :=
        fun hc => blue_green_ne spec.name spec.name hc.symm
      rw [seedStep_true_eq, mapInsert_fresh m _ _ hbfresh]
      have hgfresh2 : (spec.name ++ "_green") ∉
          (m ++ [(spec.name ++ "_blue",
            newSolrSectionStatus spec (spec.name ++ "_blue"))]).map Prod.fst := by
        rw [List.map_append]
        intro hc
        rcases List.mem_append.mp hc with hc | hc
        · exact hgfresh hc
        · simp at hc
          exact hgb hc
      rw [mapInsert_fresh _ _ _ hgfresh2]
      have hbnot : (spec.name ++ "_blue") ∉ desiredInstanceNames true t := by
        intro hd
        rcases (mem_desired_true t _).mp hd with ⟨u, hu, hor⟩
        rcases hor with hor | hor
        · have heq : spec.name = u.name := string_append_right_inj "_blue" hor
          exact hn1 (by rw [heq]; exact List.mem_map_of_mem _ hu)
        · exact blue_green_ne spec.name u.name hor
      have hgnot : (spec.name ++ "_green") ∉ desiredInstanceNames true t := by
        intro hd
        rcases (mem_desired_true t _).mp hd with ⟨u, hu, hor⟩
        rcases hor with hor | hor
        · exact blue_green_ne u.name spec.name hor.symm
        · have heq : spec.name = u.name := string_append_right_inj "_green" hor
          exact hn1 (by rw [heq]; exact List.mem_map_of_mem _ hu)
      have hfresh' : ∀ k ∈ ((m ++ [(spec.name ++ "_blue",
            newSolrSectionStatus spec (spec.name ++ "_blue"))]) ++
            [(spec.name ++ "_green",
              newSolrSectionStatus spec (spec.name ++ "_green"))]).map Prod.fst,
          k ∉ desiredInstanceNames true t := by
        intro k hk
        rw [List.map_append, List.map_append] at hk
        rcases List.mem_append.mp hk with hk | hk
        · rcases List.mem_append.mp hk with hk | hk
          · intro hd
            exact hm k hk (by
              rw [desired_true_cons]
              exact List.mem_cons_of_mem _ (List.mem_cons_of_mem _ hd))
          · simp at hk
            rw [hk]
            exact hbnot
        · simp at hk
          rw [hk]
          exact hgnot
      rw [ih _ hn2 hfresh', desired_true_cons, List.map_append, List.map_append]
      simp

/-- With distinct spec names the seeded status map is keyed exactly by the
desired instance names. -/
theorem seedStatusMap_fst (bg : Bool) (collections : List SolrCollection)
    (hnd : (collections.map SolrCollection.name).Nodup) :
    (seedStatusMap bg collections).map Prod.fst =
      desiredInstanceNames bg collections := by
  have h := seedStatusMap_fst_aux bg collections [] hnd (by intro k hk; simp at hk)
  unfold seedStatusMap
  simpa using h

/-- Length of the desired-instance expansion. -/
theorem desired_length (bg : Bool) (collections : List SolrCollection) :
    (desiredInstanceNames bg collections).length =
      collections.length * (if bg then 2 else 1) := by
  induction collections with
  | nil => cases bg <;> simp [desiredInstanceNames]
  | cons s t ih =>
    cases bg with
    | false =>
      rw [desired_false_cons, List.length_cons, ih]
      simp
    | true =>
      rw [desired_true_cons, List.length_cons, List.length_cons, ih]
      simp
      omega

/-- C10: with distinct spec names (the CRD declares the list as a map keyed
by `name`), the computed status holds exactly one `CollectionStatus` entry
per desired instance — keyed exactly by the desired instance names, hence
`len(spec.collections)` entries, doubled when blue/green is enabled — and
no entry for any observed cluster collection outside the desired
expansion. -/
theorem c10_status_entries (csn ns : String) (rf : Int) (bg : Bool)
    (collections : List SolrCollection) (cluster : ClusterStatus)
    (hnd : (collections.map SolrCollection.name).Nodup) :
    ((populateCollectionSetStatus csn ns rf bg collections cluster).solrCollections.map
        Prod.fst = desiredInstanceNames bg collections) ∧
    (populateCollectionSetStatus csn ns rf bg collections
        cluster).solrCollections.length =
      collections.length * (if bg then 2 else 1) := by
  have hkeys : (populateCollectionSetStatus csn ns rf bg collections
      cluster).solrCollections.map Prod.fst = desiredInstanceNames bg collections := by
    unfold populateCollectionSetStatus
    rw [foldl_populateStep_statusMap_fst]
    exact seedStatusMap_fst bg collections hnd
  refine ⟨hkeys, ?_⟩
  have hlen := congrArg List.length hkeys
  rw [List.length_map] at hlen
  rw [hlen, desired_length]

/-- C2 (counterexample): in the concrete blue/green scenario where the
alias `x` points at `x_blue` and both instances exist, the computed status
reports `x_blue` active but `x_green` INACTIVE — the claim asserts both
would be active. -/
theorem c2_counterexample :
    lookupA c2Cluster.aliases "x" = some "x_blue" ∧
    (lookupA c2Result.solrCollections "x_blue").map SolrCollectionStatus.exists_ =
      some true ∧
    (lookupA c2Result.solrCollections "x_green").map SolrCollectionStatus.exists_ =
      some true ∧
    (lookupA c2Result.solrCollections "x_blue").map SolrCollectionStatus.active =
      some true ∧
    (lookupA c2Result.solrCollections "x_green").map SolrCollectionStatus.active =
      some false := by
  refine ⟨by decide, by decide, by decide, by decide, by decide⟩

/-- Witness for the amended C2 theorem at the concrete scenario: the
`x_green` entry's active flag equals the reverse-alias lookup of
`trimSuffix "x_green" "_green" = "x"`, which fails, so it is false. -/
theorem c2_amended_witness :
    c2Cluster.collections =
      [("x_blue", { name := "x_blue"
                    replicationFactor := 1
                    replicaCount := 1
                    configName := "x" })] ++
        ("x_green", { name := "x_green"
                      replicationFactor := 1
                      replicaCount := 1
                      configName := "x" }) :: [] ∧
    (lookupA (populateCollectionSetStatus "foo" "default" 1 true
        [{ name := "x", aliasName := "x", configsetName := "x" }]
        c2Cluster).solrCollections "x_green").map SolrCollectionStatus.active =
      some (if true then
        (lookupA (reverseAliases c2Cluster.aliases)
          (trimSuffix "x_green" "_green")).isSome
        else true) :=
  ⟨by decide,
    c2_amended "foo" "default" 1 true
      [{ name := "x", aliasName := "x", configsetName := "x" }] c2Cluster
      [("x_blue", { name := "x_blue"
                    replicationFactor := 1
                    replicaCount := 1
                    configName := "x" })] [] "x_green"
      { name := "x_green"
        replicationFactor := 1
        replicaCount := 1
        configName := "x" }
      (by decide) (by decide) (by decide) (by decide)
      { name := "x"
        instanceName := "x_green"
        configSet := "x"
        exists_ := false
        active := false
        blueGreen := true
        replicationFactor := 0
        replicaCount := 0
        replicationStatus := "--" }
      (by decide)⟩

/-- C3 (counterexample): a cluster state whose single collection has both
a replication-factor mismatch (spec 3 vs collection 2) and a replica-count
mismatch (1 of 2) records reason `scalingOut` on the `Stable` condition,
not `replicationFactorMismatch` as the claim's priority demands. -/
theorem c3_counterexample :
    c3Result.stableCondition.reason = reasonSolrCollectionSetScalingOut ∧
    c3Result.stableCondition.reason ≠ reasonSolrCollectionReplicationFactorMismatch ∧
    c3Result.stableCondition.status = "False" := by
  refine ⟨by decide, by decide, by decide⟩

/-- Witness for the amended C3 theorem at the concrete scenario. -/
theorem c3_amended_witness :
    hasPrefixStr "c" "_" = false ∧
    (3 : Int) ≠ 2 ∧ (1 : Int) ≠ 2 ∧
    (((populateCollectionSetStatus "foo" "default" 3 false
        [{ name := "c", aliasName := "c", configsetName := "c" }]
        { collections := [("c", { name := "c"
                                  replicationFactor := 2
                                  replicaCount := 1
                                  configName := "c" })]
          aliases := [] }).stableCondition.reason =
      if (1 : Int) < 2 then reasonSolrCollectionSetScalingOut
      else reasonSolrCollectionSetScalingIn) ∧
    (populateCollectionSetStatus "foo" "default" 3 false
        [{ name := "c", aliasName := "c", configsetName := "c" }]
        { collections := [("c", { name := "c"
                                  replicationFactor := 2
                                  replicaCount := 1
                                  configName := "c" })]
          aliases := [] }).stableCondition.reason ≠
      reasonSolrCollectionReplicationFactorMismatch) :=
  ⟨by decide, by decide, by decide,
    c3_amended "foo" "default" "c" 3 false
      [{ name := "c", aliasName := "c", configsetName := "c" }] []
      { name := "c"
        replicationFactor := 2
        replicaCount := 1
        configName := "c" }
      (by decide) (by decide) (by decide)⟩

/-- C4 (counterexample): with `cleanupEnabled=false`, spec `[x]`,
blue/green on and an engine holding `x_blue`, `x_green` and the extra `y`,
the planner indeed emits no delete, but `readyRatio` is "3/2" (the claim
says "2/2") and the `Stable` condition is False with reason
`removingCollections` (the claim says stable). -/
theorem c4_counterexample :
    c4Result.readyRatio = "3/2" ∧
    c4Result.readyRatio ≠ "2/2" ∧
    c4Result.stableCondition.status = "False" ∧
    c4Result.stableCondition.reason = reasonSolrCollectionRemovingCollections ∧
    (manageCollectionsPlan 1 true false
        [{ name := "x", aliasName := "x", configsetName := "x" }]
        c4Cluster.collections c4Cluster.aliases).deleteCollectionsMap = [] := by
  refine ⟨by decide, by decide, by decide, by decide, by decide⟩

/-- C4 (amended): with `cleanupEnabled=false` the planner emits no
collection or alias delete on ANY input; in the scenario the extra
non-reserved collection `y` is counted by `countSolrCollections`, so the
status reports `readyRatio = "3/2"` and the `Stable` condition is False
with reason `removingCollections`. -/
theorem c4_amended :
    (∀ (replicationFactor : Int) (isBlueGreenEnabled : Bool)
      (specCollections : List SolrCollection)
      (solrCollections : List (String × Collection))
      (aliases : List (String × String)),
      (manageCollectionsPlan replicationFactor isBlueGreenEnabled false
        specCollections solrCollections aliases).deleteCollectionsMap = [] ∧
      (manageCollectionsPlan replicationFactor isBlueGreenEnabled false
        specCollections solrCollections aliases).deleteAliasesMap = []) ∧
    c4Result.readyRatio = "3/2" ∧
    c4Result.stableCondition.status = "False" ∧
    c4Result.stableCondition.reason = reasonSolrCollectionRemovingCollections := by
  refine ⟨?_, by decide, by decide, by decide⟩
  intro replicationFactor isBlueGreenEnabled specCollections solrCollections aliases
  constructor <;> rfl

/-- Members of an insertion come from the original list or are the new
binding. -/
theorem mem_mapInsert {α : Type} {m : List (String × α)} {k : String} {v : α}
    {q : String × α} (h : q ∈ mapInsert m k v) : q ∈ m ∨ q = (k, v) := by
  unfold mapInsert at h
  rcases List.mem_append.mp h with h | h
  · exact Or.inl (List.mem_of_mem_filter h)
  · simp at h
    exact Or.inr h

/-- Generalized invariant of the reverse-alias fold. -/
theorem reverseAliases_mem_aux (aliases : List (String × String)) :
    ∀ (l : List (String × String)) (acc : List (String × String)),
      (∀ x ∈ l, x ∈ aliases) → (∀ p ∈ acc, (p.2, p.1) ∈ aliases) →
      ∀ p ∈ l.foldl (fun acc p => mapInsert acc p.2 p.1) acc, (p.2, p.1) ∈ aliases := by
  intro l
  induction l with
  | nil => intro acc _ hacc p hp; exact hacc p hp
  | cons a t ih =>
    intro acc hl hacc p hp
    rw [List.foldl_cons] at hp
    refine ih _ (fun x hx => hl x (List.mem_cons_of_mem _ hx)) ?_ p hp
    intro q hq
    rcases mem_mapInsert hq with hq | hq
    · exact hacc q hq
    · rw [hq]
      exact hl a (List.mem_cons_self _ _)

/-- Every reverse-alias entry `(collection, alias)` comes from an alias
entry `(alias, collection)`. -/
theorem reverseAliases_mem (aliases : List (String × String)) :
    ∀ p ∈ reverseAliases aliases, (p.2, p.1) ∈ aliases := by
  intro p hp
  exact reverseAliases_mem_aux aliases aliases [] (fun x hx => hx)
    (fun q hq => absurd hq (by simp)) p hp

/-- In an association list with distinct keys, a key determines its
value. -/
theorem nodup_keys_eq {α : Type} {l : List (String × α)}
    (h : (l.map Prod.fst).Nodup) {a : String} {x y : α}
    (hx : (a, x) ∈ l) (hy : (a, y) ∈ l) : x = y := by
  induction l with
  | nil => exact absurd hx (by simp)
  | cons b t ih =>
    rw [List.map_cons] at h
    obtain ⟨hb, ht⟩ := List.nodup_cons.mp h
    rcases List.mem_cons.mp hx with hx1 | hx1 <;>
      rcases List.mem_cons.mp hy with hy1 | hy1
    · have heq : (a, x) = (a, y) := hx1.trans hy1.symm
      exact congrArg Prod.snd heq
    · exfalso
      have hmem : a ∈ List.map Prod.fst t := List.mem_map_of_mem Prod.fst hy1
      rw [← hx1] at hb
      exact hb hmem
    · exfalso
      have hmem : a ∈ List.map Prod.fst t := List.mem_map_of_mem Prod.fst hx1
      rw [← hy1] at hb
      exact hb hmem
    · exact ih ht hx1 hy1

/-- Invariant of the cleanup fold: queued collection deletions are never
`_`-prefixed, and queued alias deletions pair a non-reserved collection
with an alias that points at it. -/
theorem deletePlan_pred (specCollectionsMap : List (String × SolrCollection))
    (collectionsToAliasesMap : List (String × String))
    (aliases : List (String × String))
    (hcam : ∀ p ∈ collectionsToAliasesMap, (p.2, p.1) ∈ aliases) :
    ∀ (l : List (String × Collection))
      (acc : List (String × SolrCollection) × List (String × String)),
      (∀ p ∈ acc.1, hasPrefixStr p.1 "_" = false) →
      (∀ p ∈ acc.2, hasPrefixStr p.1 "_" = false ∧ (p.2, p.1) ∈ aliases) →
      (∀ p ∈ (l.foldl (deletePlanStep specCollectionsMap collectionsToAliasesMap) acc).1,
        hasPrefixStr p.1 "_" = false) ∧
      (∀ p ∈ (l.foldl (deletePlanStep specCollectionsMap collectionsToAliasesMap) acc).2,
        hasPrefixStr p.1 "_" = false ∧ (p.2, p.1) ∈ aliases) := by
  intro l
  induction l with
  | nil => intro acc h1 h2; exact ⟨h1, h2⟩
  | cons e t ih =>
    intro acc h1 h2
    rw [List.foldl_cons]
    apply ih
    · intro p hp
      unfold deletePlanStep at hp
      by_cases hc : ((lookupA specCollectionsMap e.1).isNone &&
          !(hasPrefixStr e.1 "_")) = true
      · simp only [hc, if_true] at hp
        have hpre : hasPrefixStr e.1 "_" = false := by
          revert hc
          cases hasPrefixStr e.1 "_" <;> simp
        cases hl : lookupA collectionsToAliasesMap e.1 with
        | some a =>
          simp only [hl] at hp
          rcases mem_mapInsert hp with hp | hp
          · exact h1 p hp
          · rw [hp]; exact hpre
        | none =>
          simp only [hl] at hp
          rcases mem_mapInsert hp with hp | hp
          · exact h1 p hp
          · rw [hp]; exact hpre
      · simp only [hc] at hp
        simp at hp
        exact h1 p hp
    · intro p hp
      unfold deletePlanStep at hp
      by_cases hc : ((lookupA specCollectionsMap e.1).isNone &&
          !(hasPrefixStr e.1 "_")) = true
      · simp only [hc, if_true] at hp
        have hpre : hasPrefixStr e.1 "_" = false := by
          revert hc
          cases hasPrefixStr e.1 "_" <;> simp
        cases hl : lookupA collectionsToAliasesMap e.1 with
        | some a =>
          simp only [hl] at hp
          rcases mem_mapInsert hp with hp | hp
          · exact h2 p hp
          · rw [hp]
            exact ⟨hpre, hcam (e.1, a) (lookupA_mem hl)⟩
        | none =>
          simp only [hl] at hp
          exact h2 p hp
      · simp only [hc] at hp
        simp at hp
        exact h2 p hp

/-- Invariant of the configset cleanup fold: queued configset deletions
are never `_`-prefixed. -/
theorem configRemoves_pred (configMaps : List (String × ConfigMapInfo)) :
    ∀ (l : List String) (acc : List (String × String)),
      (∀ p ∈ acc, hasPrefixStr p.1 "_" = false) →
      ∀ p ∈ l.foldl (fun acc name =>
          if (lookupA configMaps name).isNone && !(hasPrefixStr name "_") then
            mapInsert acc name name
          else acc) acc,
        hasPrefixStr p.1 "_" = false := by
  intro l
  induction l with
  | nil => intro acc hacc p hp; exact hacc p hp
  | cons e t ih =>
    intro acc hacc p hp
    rw [List.foldl_cons] at hp
    refine ih _ ?_ p hp
    intro q hq
    by_cases hc : ((lookupA configMaps e).isNone && !(hasPrefixStr e "_")) = true
    · simp only [hc, if_true] at hq
      rcases mem_mapInsert hq with hq | hq
      · exact hacc q hq
      · rw [hq]
        revert hc
        cases hasPrefixStr e "_" <;> simp
    · simp only [hc] at hq
      simp at hq
      exact hacc q hq

/-- C6: reserved immunity. With the alias map keyed uniquely (Go map):
every entry queued in `deleteCollectionsMap` names a non-reserved
collection (hence never a reserved instance `i`), every entry queued in
`deleteAliasesMap` stores an alias that points at a non-reserved
collection (hence at no reserved `i`), and every configset queued for
deletion is not `_`-prefixed — all independent of `cleanupEnabled`. -/
theorem c6_reserved_immunity (replicationFactor : Int)
    (isBlueGreenEnabled isCleanupEnabled : Bool)
    (specCollections : List SolrCollection)
    (solrCollections : List (String × Collection))
    (aliases : List (String × String)) (solrConfigSets : List String)
    (configMaps : List (String × ConfigMapInfo))
    (hnd : (aliases.map Prod.fst).Nodup) (i : String)
    (hres : hasPrefixStr i "_" = true) :
    (∀ p ∈ (manageCollectionsPlan replicationFactor isBlueGreenEnabled
        isCleanupEnabled specCollections solrCollections aliases).deleteCollectionsMap,
      p.1 ≠ i) ∧
    (∀ p ∈ (manageCollectionsPlan replicationFactor isBlueGreenEnabled
        isCleanupEnabled specCollections solrCollections aliases).deleteAliasesMap,
      (p.2, i) ∉ aliases) ∧
    (∀ p ∈ computeConfigMapsToRemove isCleanupEnabled solrConfigSets configMaps,
      hasPrefixStr p.1 "_" = false) := by
  have hcam := reverseAliases_mem aliases
  have hchar1 : (manageCollectionsPlan replicationFactor isBlueGreenEnabled
      isCleanupEnabled specCollections solrCollections aliases).deleteCollectionsMap =
      (if isCleanupEnabled then
        solrCollections.foldl (deletePlanStep
          (mapCollections specCollections isBlueGreenEnabled)
          (reverseAliases aliases)) ([], [])
      else ([], [])).1 := rfl
  have hchar2 : (manageCollectionsPlan replicationFactor isBlueGreenEnabled
      isCleanupEnabled specCollections solrCollections aliases).deleteAliasesMap =
      (if isCleanupEnabled then
        solrCollections.foldl (deletePlanStep
          (mapCollections specCollections isBlueGreenEnabled)
          (reverseAliases aliases)) ([], [])
      else ([], [])).2 := rfl
  refine ⟨?_, ?_, ?_⟩
  · intro p hp
    rw [hchar1] at hp
    cases isCleanupEnabled with
    | false => exact absurd hp (by simp)
    | true =>
      simp only [if_true] at hp
      have hdel := (deletePlan_pred (mapCollections specCollections isBlueGreenEnabled)
        (reverseAliases aliases) aliases hcam solrCollections ([], [])
        (fun q hq => absurd hq (by simp)) (fun q hq => absurd hq (by simp))).1 p hp
      intro hpe
      rw [hpe, hres] at hdel
      exact absurd hdel (by simp)
  · intro p hp
    rw [hchar2] at hp
    cases isCleanupEnabled with
    | false => exact absurd hp (by simp)
    | true =>
      simp only [if_true] at hp
      obtain ⟨hpre, hmemc⟩ := (deletePlan_pred
        (mapCollections specCollections isBlueGreenEnabled)
        (reverseAliases aliases) aliases hcam solrCollections ([], [])
        (fun q hq => absurd hq (by simp)) (fun q hq => absurd hq (by simp))).2 p hp
      intro hmem
      have heq := nodup_keys_eq hnd hmemc hmem
      rw [heq, hres] at hpre
      exact absurd hpre (by simp)
  · intro p hp
    unfold computeConfigMapsToRemove at hp
    cases isCleanupEnabled with
    | false => exact absurd hp (by simp)
    | true =>
      simp only [if_true] at hp
      exact configRemoves_pred configMaps solrConfigSets []
        (fun q hq => absurd hq (by simp)) p hp

/-- Witness for C6 at a concrete cluster holding the reserved collection
`_secret` with an alias pointing at it. -/
theorem c6_reserved_immunity_witness :
    ((([("x", "x_blue"), ("a", "_secret")] : List (String × String)).map
        Prod.fst).Nodup) ∧
    hasPrefixStr "_secret" "_" = true ∧
    ((∀ p ∈ (manageCollectionsPlan 1 true true
        [{ name := "x", aliasName := "x", configsetName := "x" }]
        [("x_blue", { name := "x_blue"
                      replicationFactor := 1
                      replicaCount := 1
                      configName := "x" }),
         ("_secret", { name := "_secret"
                       replicationFactor := 1
                       replicaCount := 1
                       configName := "_checksums" }),
         ("y", { name := "y"
                 replicationFactor := 1
                 replicaCount := 1
                 configName := "y" })]
        [("x", "x_blue"), ("a", "_secret")]).deleteCollectionsMap, p.1 ≠ "_secret") ∧
    (∀ p ∈ (manageCollectionsPlan 1 true true
        [{ name := "x", aliasName := "x", configsetName := "x" }]
        [("x_blue", { name := "x_blue"
                      replicationFactor := 1
                      replicaCount := 1
                      configName := "x" }),
         ("_secret", { name := "_secret"
                       replicationFactor := 1
                       replicaCount := 1
                       configName := "_checksums" }),
         ("y", { name := "y"
                 replicationFactor := 1
                 replicaCount := 1
                 configName := "y" })]
        [("x", "x_blue"), ("a", "_secret")]).deleteAliasesMap,
      (p.2, "_secret") ∉ ([("x", "x_blue"), ("a", "_secret")] : List (String × String))) ∧
    (∀ p ∈ computeConfigMapsToRemove true ["x", "_checksums", "zz"]
        [("x", { mapName := "cm-x", configset := "YQ==" })],
      hasPrefixStr p.1 "_" = false)) :=
  ⟨by decide, by decide,
    c6_reserved_immunity 1 true true
      [{ name := "x", aliasName := "x", configsetName := "x" }]
      [("x_blue", { name := "x_blue"
                    replicationFactor := 1
                    replicaCount := 1
                    configName := "x" }),
       ("_secret", { name := "_secret"
                     replicationFactor := 1
                     replicaCount := 1
                     configName := "_checksums" }),
       ("y", { name := "y"
               replicationFactor := 1
               replicaCount := 1
               configName := "y" })]
      [("x", "x_blue"), ("a", "_secret")] ["x", "_checksums", "zz"]
      [("x", { mapName := "cm-x", configset := "YQ==" })]
      (by decide) "_secret" (by decide)⟩

/-- The upload decision for one configmap does not affect the queue entry
of another collection. -/
theorem uploadDecisionStep_other (hash : String → String)
    (solrConfigSets : List String) (configSetChecksums : List (String × String))
    (acc : List (String × ConfigMapInfo)) (p : String × ConfigMapInfo)
    (c : String) (h : p.1 ≠ c) :
    lookupA (uploadDecisionStep hash solrConfigSets configSetChecksums acc p) c =
      lookupA acc c := by
  unfold uploadDecisionStep
  by_cases h1 : containsStr solrConfigSets p.1 = true
  · simp only [h1, Bool.not_true, Bool.false_eq_true, if_false]
    cases hl : lookupA configSetChecksums p.1 with
    | none => exact lookupA_mapInsert_ne acc c p.1 p.2 (fun hc => h hc.symm)
    | some sc =>
      by_cases h2 : (hash p.2.configset != sc) = true
      · simp only [h2, if_true]
        exact lookupA_mapInsert_ne acc c p.1 p.2 (fun hc => h hc.symm)
      · simp only [h2]
        simp
  · have h1f : containsStr solrConfigSets p.1 = false := by
      revert h1
      cases containsStr solrConfigSets p.1 <;> simp
    simp only [h1f, Bool.not_false, if_true]
    exact lookupA_mapInsert_ne acc c p.1 p.2 (fun hc => h hc.symm)

/-- A configmap whose configset exists in the engine and whose stored
checksum equals the digest of its payload is not queued. -/
theorem uploadDecisionStep_same (hash : String → String)
    (solrConfigSets : List String) (configSetChecksums : List (String × String))
    (acc : List (String × ConfigMapInfo)) (c : String) (cm : ConfigMapInfo)
    (hex : containsStr solrConfigSets c = true)
    (hst : lookupA configSetChecksums c = some (hash cm.configset)) :
    uploadDecisionStep hash solrConfigSets configSetChecksums acc (c, cm) = acc := by
  unfold uploadDecisionStep
  simp [hex, hst]

/-- C7: checksum round-trip. After an upload of blob `b` for collection
`c` the configset exists in the engine and the stored checksum record is
`hash b` (the MD5 of the base64 payload as received, `hash` kept
uninterpreted); a subsequent planning pass over configmaps whose entry for
`c` carries the same blob `b` computes the equal checksum and does not
enqueue `c` for upload. -/
theorem c7_checksum_roundtrip (hash : String → String)
    (solrConfigSets : List String) (configSetChecksums : List (String × String))
    (configMaps : List (String × ConfigMapInfo)) (c b : String)
    (hexists : containsStr solrConfigSets c = true)
    (hstored : lookupA configSetChecksums c = some (hash b))
    (hblob : ∀ cm : ConfigMapInfo, (c, cm) ∈ configMaps → cm.configset = b) :
    lookupA (computeConfigMapsToUpload hash solrConfigSets configSetChecksums
      configMaps) c = none := by
  unfold computeConfigMapsToUpload
  suffices h : ∀ (l : List (String × ConfigMapInfo)) (acc : List (String × ConfigMapInfo)),
      (∀ cm, (c, cm) ∈ l → cm.configset = b) → lookupA acc c = none →
      lookupA (l.foldl (uploadDecisionStep hash solrConfigSets configSetChecksums)
        acc) c = none by
    exact h configMaps [] hblob rfl
  intro l
  induction l with
  | nil => intro acc _ hacc; exact hacc
  | cons e t ih =>
    intro acc hbl hacc
    rw [List.foldl_cons]
    apply ih _ (fun cm hcm => hbl cm (List.mem_cons_of_mem _ hcm))
    by_cases hc : e.1 = c
    · have hee : (c, e.2) = e := by rw [← hc]
      have hcb : e.2.configset = b := hbl e.2 (by rw [hee]; exact List.mem_cons_self _ _)
      have hsame := uploadDecisionStep_same hash solrConfigSets configSetChecksums
        acc c e.2 hexists (by rw [hcb]; exact hstored)
      rw [← hee, hsame]
      exact hacc
    · rw [uploadDecisionStep_other hash solrConfigSets configSetChecksums acc e c hc]
      exact hacc

/-- Witness for C7 with the identity digest on a concrete store. -/
theorem c7_checksum_roundtrip_witness :
    containsStr ["x"] "x" = true ∧
    lookupA [("x", "blob")] "x" =
      some ((fun s => s) "blob") ∧
    lookupA (computeConfigMapsToUpload (fun s => s) ["x"] [("x", "blob")]
      [("x", { mapName := "cm-x", configset := "blob" })]) "x" = none :=
  ⟨by decide, by decide,
    c7_checksum_roundtrip (fun s => s) ["x"] [("x", "blob")]
      [("x", { mapName := "cm-x", configset := "blob" })] "x" "blob"
      (by decide) (by decide)
      (by
        intro cm hcm
        simp at hcm
        rw [hcm])⟩

/-- C8 (counterexample): with two configsets queued for upload and the
first upload failing, `ManageConfigSets` performs only the first upload
call and returns the error — the second queued upload is never attempted,
contradicting the claim that the rest of the bucket still runs. -/
theorem c8_counterexample :
    (processUploads (fun _ => some "z") (fun c => c == "a") (fun _ => false)
        "_fooChecksums" c8ConfigMaps).1 = [ConfigOp.uploadConfigSet "a"] ∧
    ConfigOp.uploadConfigSet "b" ∉
      (processUploads (fun _ => some "z") (fun c => c == "a") (fun _ => false)
        "_fooChecksums" c8ConfigMaps).1 ∧
    (processUploads (fun _ => some "z") (fun c => c == "a") (fun _ => false)
        "_fooChecksums" c8ConfigMaps).2 = some "could not upload configset a" := by
  refine ⟨by decide, by decide, by decide⟩

/-- C8 (amended): in `ManageCollections` per-operation failures are only
logged, so the sequence of engine calls is identical under any failure
oracle; but in `ManageConfigSets` a failed configset upload returns
immediately with an error, performing no further calls, so the remaining
queued uploads are skipped. -/
theorem c8_amended :
    (∀ (fails fails2 : SolrOp → Bool) (replicationFactor : Int)
      (isBlueGreenEnabled isCleanupEnabled : Bool)
      (specCollections : List SolrCollection)
      (solrCollections : List (String × Collection))
      (aliases : List (String × String)),
      (manageCollectionsExec fails replicationFactor isBlueGreenEnabled
        isCleanupEnabled specCollections solrCollections aliases).map Prod.fst =
      (manageCollectionsExec fails2 replicationFactor isBlueGreenEnabled
        isCleanupEnabled specCollections solrCollections aliases).map Prod.fst) ∧
    (∀ (b64decode : String → Option String) (uploadFails writeFails : String → Bool)
      (checksumCollectionName collection : String) (configMap : ConfigMapInfo)
      (rest : List (String × ConfigMapInfo)) (bytes : String),
      b64decode configMap.configset = some bytes →
      uploadFails collection = true →
      processUploads b64decode uploadFails writeFails checksumCollectionName
        ((collection, configMap) :: rest) =
        ([ConfigOp.uploadConfigSet collection],
          some ("could not upload configset " ++ collection))) := by
  constructor
  · intro fails fails2 replicationFactor isBlueGreenEnabled isCleanupEnabled
      specCollections solrCollections aliases
    unfold manageCollectionsExec
    rw [List.map_map, List.map_map]
    rfl
  · intro b64decode uploadFails writeFails checksumCollectionName collection
      configMap rest bytes hb64 hup
    simp [processUploads, hb64, hup]

/-- Witness for the abort half of the amended C8 theorem. -/
theorem c8_amended_witness :
    (fun (_ : String) => some "z") "YQ==" = some "z" ∧
    (fun (c : String) => c == "a") "a" = true ∧
    processUploads (fun _ => some "z") (fun c => c == "a") (fun _ => false)
        "_fooChecksums" (("a", { mapName := "cm-a", configset := "YQ==" }) ::
          [("b", { mapName := "cm-b", configset := "Yg==" })]) =
      ([ConfigOp.uploadConfigSet "a"], some ("could not upload configset " ++ "a")) :=
  ⟨by decide, by decide,
    (c8_amended.2 (fun _ => some "z") (fun c => c == "a") (fun _ => false)
      "_fooChecksums" "a" { mapName := "cm-a", configset := "YQ==" }
      [("b", { mapName := "cm-b", configset := "Yg==" })] "z"
      (by decide) (by decide))⟩

/-- Witness for C10 on a two-collection spec against the C4 cluster (which
holds the extra collection `y`): the status keys are exactly the four
desired instance names; no entry for `y` appears. -/
theorem c10_status_entries_witness :
    (([{ name := "x", aliasName := "x", configsetName := "x" },
       { name := "z", aliasName := "z", configsetName := "z" }].map
        SolrCollection.name).Nodup) ∧
    ((populateCollectionSetStatus "foo" "default" 1 true
        [{ name := "x", aliasName := "x", configsetName := "x" },
         { name := "z", aliasName := "z", configsetName := "z" }]
        c4Cluster).solrCollections.map Prod.fst =
      desiredInstanceNames true
        [{ name := "x", aliasName := "x", configsetName := "x" },
         { name := "z", aliasName := "z", configsetName := "z" }]) ∧
    ((populateCollectionSetStatus "foo" "default" 1 true
        [{ name := "x", aliasName := "x", configsetName := "x" },
         { name := "z", aliasName := "z", configsetName := "z" }]
        c4Cluster).solrCollections.length =
      ([{ name := "x", aliasName := "x", configsetName := "x" },
        { name := "z", aliasName := "z", configsetName := "z" }] :
        List SolrCollection).length * (if true then 2 else 1)) :=
  ⟨by decide,
    (c10_status_entries "foo" "default" 1 true
      [{ name := "x", aliasName := "x", configsetName := "x" },
       { name := "z", aliasName := "z", configsetName := "z" }]
      c4Cluster (by decide)).1,
    (c10_status_entries "foo" "default" 1 true
      [{ name := "x", aliasName := "x", configsetName := "x" },
       { name := "z", aliasName := "z", configsetName := "z" }]
      c4Cluster (by decide)).2⟩
